import Mathlib

/-!
Shallow embedding of `firedrake/preconditioners/assembled.py`
(classes `AssembledPC` and `ExplicitSchurPC`).

Bilinear forms, boundary-condition lists, communicators, function spaces
and form-compiler parameters are opaque to this file's code: they are
created by external collaborators and only passed around, so they are
modelled as natural-number identifiers.  PETSc calls performed on
external objects are recorded in an event trace; instance attributes of
the preconditioner object (`self.P`, `self._assemble_P`, `self.pc`) are
modelled as an explicit state record threaded through the methods.
-/

namespace Firedrake

/-- A PETSc null space handle; `handle = 0` models the null handle
(`tnullsp.handle != 0` is how the source tests for presence). -/
structure NullSpace where
  handle : Nat
deriving Repr, DecidableEq

/-- The Python context of a matrix-free (type `"python"`) PETSc matrix,
as used by the source: a flag `on_diag`, a bilinear form `a` and row
boundary conditions `row_bcs`. -/
structure PythonContext where
  on_diag : Bool
  a : Nat
  row_bcs : Nat
deriving Repr, DecidableEq

/-- A PETSc matrix handle: its type string, the Python context when the
matrix is matrix-free, and its attached null spaces. -/
structure Mat where
  type : String
  ctx : Option PythonContext
  nullsp : NullSpace
  tnullsp : NullSpace
deriving Repr, DecidableEq

/-- The outer PETSc PC object handed to the lifecycle hooks, with the
data the source reads off it: `getType()`, `getOperators()`, the
function space attached to its DM, the `form_compiler_parameters` entry
of the application context, `getOptionsPrefix()` and its communicator. -/
structure OuterPC where
  pcType : String
  Amat : Mat
  Pmat : Mat
  dmSpace : Nat
  fcp : Option Nat
  optsPfx : String
  comm : Nat
deriving Repr, DecidableEq

/-- Python-level errors raised by the embedded code. -/
inductive PErr where
  | valueError (msg : String)
  | attributeError (attr : String)
  | assertionError
  | notImplementedError
deriving Repr, DecidableEq

/-- A Python object that can appear as a positional argument of the
`form` hook at the call site `self.form(pc, test, trial)`: the outer PC
object, the test function or the trial function. -/
inductive PyObj where
  | pcArg (pc : OuterPC)
  | testArg (V : Nat)
  | trialArg (V : Nat)
deriving Repr, DecidableEq

/-- Dynamic attribute lookup for `.getOperators()`: only the PC object
has this attribute; on a test or trial function Python raises
`AttributeError`. -/
def PyObj.getOperators : PyObj → Except PErr (Mat × Mat)
  | .pcArg p => .ok (p.Amat, p.Pmat)
  | .testArg _ => .error (.attributeError "getOperators")
  | .trialArg _ => .error (.attributeError "getOperators")

/-- The firedrake `Matrix` produced by `allocate_matrix`, together with
the bookkeeping this model needs: an identity `id` (so that "assembles
into the same object" is expressible), the arguments it was allocated
with, how many times the assembly callable has run into it and how many
times `force_evaluation` ran, and the null spaces set on its
`petscmat`. -/
structure FMatrix where
  id : Nat
  a : Nat
  bcs : Nat
  mat_type : String
  opts_pfx : String
  fcp : Option Nat
  assembled : Nat
  forced : Nat
  nullsp : NullSpace
  tnullsp : NullSpace
deriving Repr, DecidableEq

/-- The inner PETSc PC object created by `initialize`, with the
configuration calls the source performs recorded in its fields. -/
structure InnerPC where
  id : Nat
  comm : Nat
  tabLevel : Nat
  optsPfx : String
  opMatId : Nat
  fromOptionsDone : Bool
  setUpDone : Bool
deriving Repr, DecidableEq

/-- The instance attributes of an `AssembledPC` object that the
lifecycle methods read and write: `self.P`, `self._assemble_P`
(modelled by the id of the matrix the stored callable assembles into)
and `self.pc`. -/
structure PCState where
  P : Option FMatrix
  assemble_P : Option Nat
  pc : Option InnerPC
deriving Repr, DecidableEq

/-- The fresh instance state: no attribute set yet. -/
def PCState.fresh : PCState := { P := none, assemble_P := none, pc := none }

/-- Calls on external library objects, recorded in order. -/
inductive Event where
  | readOption (key dflt : String)
  | allocateMatrix (a bcs : Nat) (mat_type opts_pfx : String)
  | assembleMat (matId : Nat)
  | forceEvaluation (matId : Nat)
  | setNullSpace (matId : Nat) (ns : NullSpace)
  | setTransposeNullSpace (matId : Nat) (ns : NullSpace)
  | createInnerPC (comm : Nat)
  | innerSetOptsPfx (s : String)
  | innerSetOperators (matId : Nat)
  | innerSetFromOptions
  | innerSetUp
  | innerApply (pcId x y : Nat)
  | innerApplyTranspose (pcId x y : Nat)
deriving Repr, DecidableEq

/-- The options database, and `PETSc.Options().getString(key, dflt)`. -/
abbrev OptionsDB := List (String × String)

/-- Looks a key up in the options database, falling back to the given
default when the key is absent. -/
def OptionsDB.getString (o : OptionsDB) (key dflt : String) : String :=
  (List.lookup key o).getD dflt

/-- Result of a lifecycle method: the instance state after the call,
the exception it raised (if any), and the trace of external calls it
performed before returning or raising. -/
structure MethodResult where
  state : PCState
  err : Option PErr
  trace : List Event
deriving Repr, DecidableEq

/-- The type of the `form` hook as seen from the call site
`(a, bcs) = self.form(pc, test, trial)`: three positional arguments,
returning a form and boundary conditions, or raising. -/
abbrev FormHook := PyObj → PyObj → PyObj → Except PErr (Nat × Nat)

/-- Embeds `AssembledPC.form(self, test, trial, pc)` with its
parameters in the order the source declares them.  The body ignores
`test` and `trial`, calls `pc.getOperators()`, asserts the
preconditioning operator has type `"python"`, and returns
`(context.a, context.row_bcs)` from its Python context. -/
def AssembledPC.form (test trial pc : PyObj) : Except PErr (Nat × Nat) :=
  match pc.getOperators with
  | .error e => .error e
  | .ok (_, P) =>
    if P.type = "python" then
      match P.ctx with
      | some context => .ok (context.a, context.row_bcs)
      | none => .error (.attributeError "getPythonContext")
    else
      .error .assertionError

/-- The default `form` hook as dispatched from `initialize`: the three
positional arguments `(pc, test, trial)` of the call site are bound, in
order, to the parameters `(test, trial, pc)` of
`AssembledPC.form`. -/
def AssembledPC.defaultHook : FormHook :=
  fun a1 a2 a3 => AssembledPC.form a1 a2 a3

/-- Embeds `ExplicitSchurPC.form(self, pc, test, trial)`: the abstract
hook whose body raises `NotImplementedError`. -/
def ExplicitSchurPC.form (pc test trial : PyObj) : Except PErr (Nat × Nat) :=
  .error .notImplementedError

/-- The class attribute `AssembledPC._prefix`. -/
def AssembledPC.clsPfx : String := "assembled_"

/-- The class attribute `ExplicitSchurPC._prefix`. -/
def ExplicitSchurPC.clsPfx : String := "schur_"

/-- Embeds `AssembledPC.initialize(self, pc)`.  `clsPfx` is the
dynamically dispatched `self._prefix`, `hook` the dynamically
dispatched `self.form` (invoked positionally as at the call site),
`self` the instance state before the call, `matId` and `innerId` the
identities of the matrix and inner PC the external library would
freshly allocate. -/
def initPCWith (clsPfx : String) (hook : FormHook) (self : PCState)
    (pc : OuterPC) (opts : OptionsDB) (matId innerId : Nat) : MethodResult :=
  let P := pc.Pmat
  if pc.pcType ≠ "python" then
    { state := self, err := some (.valueError "Expecting PC type python"),
      trace := [] }
  else
    let fcp := pc.fcp
    let V := pc.dmSpace
    let diagCheck : Option PErr :=
      if P.type = "python" then
        match P.ctx with
        | some context =>
          if context.on_diag then none
          else some (.valueError "Only makes sense to invert diagonal block")
        | none => some (.attributeError "on_diag")
      else none
    match diagCheck with
    | some e => { state := self, err := some e, trace := [] }
    | none =>
      let optsPfx := pc.optsPfx ++ clsPfx
      let mat_type := OptionsDB.getString opts (optsPfx ++ "mat_type") "aij"
      let t0 : List Event := [.readOption (optsPfx ++ "mat_type") "aij"]
      match hook (.pcArg pc) (.testArg V) (.trialArg V) with
      | .error e => { state := self, err := some e, trace := t0 }
      | .ok (a, bcs) =>
        let Pm0 : FMatrix :=
          { id := matId, a := a, bcs := bcs, mat_type := mat_type,
            opts_pfx := optsPfx, fcp := fcp, assembled := 0, forced := 0,
            nullsp := ⟨0⟩, tnullsp := ⟨0⟩ }
        let Pm1 := { Pm0 with assembled := Pm0.assembled + 1 }
        let Pm2 := { Pm1 with forced := Pm1.forced + 1 }
        let Pm3 := { Pm2 with nullsp := P.nullsp }
        let tnullsp := P.tnullsp
        let Pm4 := if tnullsp.handle ≠ 0 then { Pm3 with tnullsp := tnullsp } else Pm3
        let inner : InnerPC :=
          { id := innerId, comm := pc.comm, tabLevel := 1, optsPfx := optsPfx,
            opMatId := matId, fromOptionsDone := true, setUpDone := true }
        { state := { P := some Pm4, assemble_P := some matId, pc := some inner },
          err := none,
          trace := t0 ++
            [.allocateMatrix a bcs mat_type optsPfx,
             .assembleMat matId, .forceEvaluation matId,
             .setNullSpace matId P.nullsp] ++
            (if tnullsp.handle ≠ 0 then [.setTransposeNullSpace matId tnullsp] else []) ++
            [.createInnerPC pc.comm, .innerSetOptsPfx optsPfx,
             .innerSetOperators matId, .innerSetFromOptions, .innerSetUp] }

/-- `AssembledPC.initialize` with the class's own `_prefix` and its
default `form` hook (no subclass override). -/
def AssembledPC.initPC (self : PCState) (pc : OuterPC) (opts : OptionsDB)
    (matId innerId : Nat) : MethodResult :=
  initPCWith AssembledPC.clsPfx AssembledPC.defaultHook self pc opts matId innerId

/-- Embeds `AssembledPC.update(self, pc)`: runs the stored assembly
callable (which re-assembles into the matrix it was created with) and
forces evaluation.  Reading a missing attribute raises
`AttributeError`. -/
def updatePC (self : PCState) : MethodResult :=
  match self.assemble_P with
  | none => { state := self, err := some (.attributeError "_assemble_P"), trace := [] }
  | some tid =>
    match self.P with
    | none => { state := self, err := some (.attributeError "P"), trace := [] }
    | some Pm =>
      let Pm1 := { Pm with assembled := Pm.assembled + 1 }
      let Pm2 := { Pm1 with forced := Pm1.forced + 1 }
      { state := { self with P := some Pm2 }, err := none,
        trace := [.assembleMat tid, .forceEvaluation Pm.id] }

/-- Embeds `AssembledPC.apply(self, pc, x, y)`: delegates to
`self.pc.apply(x, y)`. -/
def applyPC (self : PCState) (x y : Nat) : MethodResult :=
  match self.pc with
  | none => { state := self, err := some (.attributeError "pc"), trace := [] }
  | some p => { state := self, err := none, trace := [.innerApply p.id x y] }

/-- Embeds `AssembledPC.applyTranspose(self, pc, x, y)`: delegates to
`self.pc.applyTranspose(x, y)`. -/
def applyTransposePC (self : PCState) (x y : Nat) : MethodResult :=
  match self.pc with
  | none => { state := self, err := some (.attributeError "pc"), trace := [] }
  | some p => { state := self, err := none, trace := [.innerApplyTranspose p.id x y] }

/-- An event assembles a matrix or allocates one. -/
def Event.isAssembly : Event → Bool
  | .allocateMatrix _ _ _ _ => true
  | .assembleMat _ => true
  | _ => false

/-- An event creates or configures an inner solver object. -/
def Event.isInnerSolverSetup : Event → Bool
  | .createInnerPC _ => true
  | .innerSetOptsPfx _ => true
  | .innerSetOperators _ => true
  | .innerSetFromOptions => true
  | .innerSetUp => true
  | _ => false

/-- A sample already-assembled (explicit) PETSc matrix. -/
def aijMat : Mat := { type := "aij", ctx := none, nullsp := ⟨2⟩, tnullsp := ⟨3⟩ }

/-- A sample matrix-free matrix whose context is a diagonal block. -/
def pyDiagMat : Mat :=
  { type := "python", ctx := some { on_diag := true, a := 7, row_bcs := 8 },
    nullsp := ⟨2⟩, tnullsp := ⟨3⟩ }

/-- A sample matrix-free matrix whose context is an off-diagonal block. -/
def pyOffDiagMat : Mat :=
  { type := "python", ctx := some { on_diag := false, a := 7, row_bcs := 8 },
    nullsp := ⟨2⟩, tnullsp := ⟨0⟩ }

/-- A sample outer PC with the given preconditioning operator and PC type. -/
def mkPC (P : Mat) (t : String) : OuterPC :=
  { pcType := t, Amat := aijMat, Pmat := P, dmSpace := 0, fcp := none,
    optsPfx := "fs_", comm := 1 }

/-- A sample overriding `form` hook that succeeds unconditionally. -/
def okHook : FormHook := fun _ _ _ => .ok (5, 6)

/-- A sample inner solver object. -/
def sampleInner : InnerPC :=
  { id := 9, comm := 1, tabLevel := 1, optsPfx := "fs_assembled_",
    opMatId := 10, fromOptionsDone := true, setUpDone := true }

/-- A sample instance state holding only an inner solver. -/
def sampleApplyState : PCState :=
  { P := none, assemble_P := none, pc := some sampleInner }

/-- The instance state after a sample successful `initialize`. -/
def sampleInitState : PCState :=
  (initPCWith "assembled_" okHook .fresh (mkPC aijMat "python") [] 10 11).state

/-- The assembled matrix held by `sampleInitState`. -/
def sampleFM : FMatrix :=
  { id := 10, a := 5, bcs := 6, mat_type := "aij", opts_pfx := "fs_assembled_",
    fcp := none, assembled := 1, forced := 1, nullsp := ⟨2⟩, tnullsp := ⟨3⟩ }

end Firedrake

namespace Firedrake

/-- C8: `ExplicitSchurPC.form` provides no default: for every
invocation (any arguments) it raises `NotImplementedError`, so a
subclass must supply the bilinear form and boundary conditions. -/
theorem C8_schur_form_not_implemented (pc test trial : PyObj) :
    ExplicitSchurPC.form pc test trial = .error .notImplementedError := rfl

/-- C7: after a successful `initialize` (so `self.pc` is set),
`apply` and `applyTranspose` delegate to the inner solver's `apply`
and `applyTranspose` on exactly `(x, y)`, raise nothing, and leave the
instance state unchanged. -/
theorem C7_apply_delegates (self : PCState) (p : InnerPC) (x y : Nat)
    (hpc : self.pc = some p) :
    applyPC self x y =
      { state := self, err := none, trace := [.innerApply p.id x y] } ∧
    applyTransposePC self x y =
      { state := self, err := none, trace := [.innerApplyTranspose p.id x y] } := by
  refine ⟨?_, ?_⟩
  · unfold applyPC; rw [hpc]
  · unfold applyTransposePC; rw [hpc]

/-- Witness for C7 at a concrete state. -/
theorem C7_apply_delegates_witness :
    sampleApplyState.pc = some sampleInner ∧
    applyPC sampleApplyState 3 4 =
      { state := sampleApplyState, err := none, trace := [.innerApply 9 3 4] } :=
  ⟨rfl, (C7_apply_delegates sampleApplyState sampleInner 3 4 rfl).1⟩

/-- C4: `update` on a state whose attributes were set by a successful
`initialize` re-assembles in place: it raises nothing, runs the stored
assembly callable into the same matrix object (same identity, same
allocation arguments, assembly count incremented) and performs no
inner-solver creation or configuration call, leaving `self.pc` (and
`self._assemble_P`) unchanged. -/
theorem C4_update_reassembles_in_place (self : PCState) (Pm : FMatrix) (tid : Nat)
    (hP : self.P = some Pm) (hA : self.assemble_P = some tid) :
    (updatePC self).err = none ∧
    (updatePC self).state.pc = self.pc ∧
    (updatePC self).state.assemble_P = self.assemble_P ∧
    (∃ Pm', (updatePC self).state.P = some Pm' ∧ Pm'.id = Pm.id ∧
      Pm'.assembled = Pm.assembled + 1 ∧ Pm'.a = Pm.a ∧ Pm'.bcs = Pm.bcs ∧
      Pm'.mat_type = Pm.mat_type ∧ Pm'.opts_pfx = Pm.opts_pfx) ∧
    (updatePC self).trace = [.assembleMat tid, .forceEvaluation Pm.id] ∧
    (∀ e ∈ (updatePC self).trace, e.isInnerSolverSetup = false) := by
  unfold updatePC
  rw [hA, hP]
  refine ⟨rfl, rfl, rfl, ⟨_, rfl, rfl, rfl, rfl, rfl, rfl, rfl⟩, rfl, ?_⟩
  intro e he
  simp only [List.mem_cons, List.not_mem_nil, or_false] at he
  rcases he with rfl | rfl <;> rfl

/-- Witness for C4 at the concrete post-initialize state. -/
theorem C4_update_reassembles_in_place_witness :
    sampleInitState.P = some sampleFM ∧
    (updatePC sampleInitState).err = none ∧
    (updatePC sampleInitState).state.pc = sampleInitState.pc :=
  have h := C4_update_reassembles_in_place sampleInitState sampleFM 10 rfl rfl
  ⟨rfl, h.1, h.2.1⟩

/-- Helper: a successful run of `initPCWith` forces the outer PC type
to be `"python"`, a matrix-free preconditioning operator to be a
diagonal block, and the `form` hook to have returned a pair. -/
theorem initPCWith_ok_inv (clsPfx : String) (hook : FormHook) (self : PCState)
    (pc : OuterPC) (opts : OptionsDB) (matId innerId : Nat)
    (hs : (initPCWith clsPfx hook self pc opts matId innerId).err = none) :
    pc.pcType = "python" ∧
    (pc.Pmat.type = "python" → ∃ c, pc.Pmat.ctx = some c ∧ c.on_diag = true) ∧
    ∃ a0 b0, hook (.pcArg pc) (.testArg pc.dmSpace) (.trialArg pc.dmSpace) =
      .ok (a0, b0) := by
  by_cases ht : pc.pcType = "python"
  · refine ⟨ht, ?_⟩
    by_cases hP : pc.Pmat.type = "python"
    · cases hc : pc.Pmat.ctx with
      | none => unfold initPCWith at hs; simp [ht, hP, hc] at hs
      | some c =>
        cases hd : c.on_diag with
        | false => unfold initPCWith at hs; simp [ht, hP, hc, hd] at hs
        | true =>
          refine ⟨fun _ => ⟨c, rfl, hd⟩, ?_⟩
          cases hh : hook (.pcArg pc) (.testArg pc.dmSpace) (.trialArg pc.dmSpace) with
          | error e => unfold initPCWith at hs; simp [ht, hP, hc, hd, hh] at hs
          | ok ab => exact ⟨ab.1, ab.2, by simp [hh]⟩
    · refine ⟨fun h => absurd h hP, ?_⟩
      cases hh : hook (.pcArg pc) (.testArg pc.dmSpace) (.trialArg pc.dmSpace) with
      | error e => unfold initPCWith at hs; simp [ht, hP, hh] at hs
      | ok ab => exact ⟨ab.1, ab.2, by simp [hh]⟩
  · unfold initPCWith at hs; simp [ht] at hs

/-- Helper: the full result of `initPCWith` on the success path. -/
theorem initPCWith_success_eq (clsPfx : String) (hook : FormHook) (self : PCState)
    (pc : OuterPC) (opts : OptionsDB) (matId innerId a0 b0 : Nat)
    (ht : pc.pcType = "python")
    (hdiag : pc.Pmat.type = "python" → ∃ c, pc.Pmat.ctx = some c ∧ c.on_diag = true)
    (hh : hook (.pcArg pc) (.testArg pc.dmSpace) (.trialArg pc.dmSpace) = .ok (a0, b0)) :
    initPCWith clsPfx hook self pc opts matId innerId =
      { state :=
          { P := some
              { id := matId, a := a0, bcs := b0,
                mat_type := OptionsDB.getString opts (pc.optsPfx ++ clsPfx ++ "mat_type") "aij",
                opts_pfx := pc.optsPfx ++ clsPfx, fcp := pc.fcp,
                assembled := 1, forced := 1, nullsp := pc.Pmat.nullsp,
                tnullsp := if pc.Pmat.tnullsp.handle ≠ 0 then pc.Pmat.tnullsp else ⟨0⟩ },
            assemble_P := some matId,
            pc := some
              { id := innerId, comm := pc.comm, tabLevel := 1,
                optsPfx := pc.optsPfx ++ clsPfx, opMatId := matId,
                fromOptionsDone := true, setUpDone := true } },
        err := none,
        trace := [.readOption (pc.optsPfx ++ clsPfx ++ "mat_type") "aij",
                  .allocateMatrix a0 b0
                    (OptionsDB.getString opts (pc.optsPfx ++ clsPfx ++ "mat_type") "aij")
                    (pc.optsPfx ++ clsPfx),
                  .assembleMat matId, .forceEvaluation matId,
                  .setNullSpace matId pc.Pmat.nullsp] ++
            (if pc.Pmat.tnullsp.handle ≠ 0
             then [.setTransposeNullSpace matId pc.Pmat.tnullsp] else []) ++
            [.createInnerPC pc.comm, .innerSetOptsPfx (pc.optsPfx ++ clsPfx),
             .innerSetOperators matId, .innerSetFromOptions, .innerSetUp] } := by
  unfold initPCWith
  by_cases hP : pc.Pmat.type = "python"
  · obtain ⟨c, hc, hd⟩ := hdiag hP
    by_cases hns : pc.Pmat.tnullsp.handle ≠ 0
    · simp [ht, hP, hc, hd, hh, hns]
    · simp [ht, hP, hc, hd, hh, hns]
  · by_cases hns : pc.Pmat.tnullsp.handle ≠ 0
    · simp [ht, hP, hh, hns]
    · simp [ht, hP, hh, hns]

/-- C1: when the preconditioning operator is matrix-free (type
`"python"`) and its context is not a diagonal block, `initialize`
raises a `ValueError`, performs no assembly or inner-solver call at
all, and leaves the instance unchanged; so assembled matrix and inner
solver are only ever constructed from a diagonal-block form. -/
theorem C1_offdiag_rejected (clsPfx : String) (hook : FormHook) (self : PCState)
    (pc : OuterPC) (opts : OptionsDB) (matId innerId : Nat) (c : PythonContext)
    (hP : pc.Pmat.type = "python") (hc : pc.Pmat.ctx = some c)
    (hd : c.on_diag = false) :
    (∃ m, (initPCWith clsPfx hook self pc opts matId innerId).err =
      some (.valueError m)) ∧
    (∀ e ∈ (initPCWith clsPfx hook self pc opts matId innerId).trace,
      e.isAssembly = false ∧ e.isInnerSolverSetup = false) ∧
    (initPCWith clsPfx hook self pc opts matId innerId).state = self := by
  unfold initPCWith
  by_cases ht : pc.pcType = "python"
  · simp [ht, hP, hc, hd]
  · simp [ht]

/-- Witness for C1 at a concrete off-diagonal matrix-free operator. -/
theorem C1_offdiag_rejected_witness :
    ((mkPC pyOffDiagMat "python").Pmat.type = "python" ∧
     (mkPC pyOffDiagMat "python").Pmat.ctx = some ⟨false, 7, 8⟩) ∧
    ∃ m, (initPCWith "assembled_" AssembledPC.defaultHook .fresh
      (mkPC pyOffDiagMat "python") [] 0 1).err = some (.valueError m) :=
  ⟨⟨by decide, by decide⟩,
   (C1_offdiag_rejected "assembled_" AssembledPC.defaultHook .fresh
     (mkPC pyOffDiagMat "python") [] 0 1 ⟨false, 7, 8⟩
     (by decide) (by decide) (by decide)).1⟩

/-- C5: a wrong outer PC type makes `initialize` raise
`ValueError("Expecting PC type python")` with the instance unchanged
and nothing retried or attempted, whatever the hook; and any other
failure (here: an error raised by the `form` hook standing for the
external libraries) is propagated unmodified. -/
theorem C5_wrong_kind_fatal_and_errors_propagate (clsPfx : String)
    (hook : FormHook) (self : PCState) (pc : OuterPC) (opts : OptionsDB)
    (matId innerId : Nat) (e : PErr) (c : PythonContext) :
    (pc.pcType ≠ "python" →
      (initPCWith clsPfx hook self pc opts matId innerId).err =
        some (.valueError "Expecting PC type python") ∧
      (initPCWith clsPfx hook self pc opts matId innerId).state = self ∧
      (initPCWith clsPfx hook self pc opts matId innerId).trace = []) ∧
    (pc.pcType = "python" →
     (pc.Pmat.type = "python" → pc.Pmat.ctx = some c ∧ c.on_diag = true) →
      (initPCWith clsPfx (fun _ _ _ => Except.error e) self pc opts matId innerId).err =
        some e) := by
  constructor
  · intro ht
    unfold initPCWith
    simp [ht]
  · intro ht hdiag
    unfold initPCWith
    by_cases hP : pc.Pmat.type = "python"
    · obtain ⟨hc, hd⟩ := hdiag hP
      simp [ht, hP, hc, hd]
    · simp [ht, hP]

/-- Witness for C5: a wrong outer kind at a concrete input, and a
concrete hook error propagated unmodified. -/
theorem C5_wrong_kind_fatal_and_errors_propagate_witness :
    (initPCWith "assembled_" AssembledPC.defaultHook .fresh
      (mkPC pyDiagMat "richardson") [] 0 1).err =
      some (.valueError "Expecting PC type python") ∧
    (initPCWith "assembled_" (fun _ _ _ => Except.error PErr.notImplementedError)
      .fresh (mkPC pyDiagMat "python") [] 0 1).err =
      some PErr.notImplementedError :=
  ⟨((C5_wrong_kind_fatal_and_errors_propagate "assembled_" AssembledPC.defaultHook
      .fresh (mkPC pyDiagMat "richardson") [] 0 1 PErr.notImplementedError
      ⟨true, 7, 8⟩).1 (by decide)).1,
   (C5_wrong_kind_fatal_and_errors_propagate "assembled_" AssembledPC.defaultHook
      .fresh (mkPC pyDiagMat "python") [] 0 1 PErr.notImplementedError
      ⟨true, 7, 8⟩).2 (by decide) (fun _ => ⟨rfl, rfl⟩)⟩

/-- C9: the two validation `ValueError`s of `initialize` are atomic
with respect to instance state: they are raised before any external
call is made and before any of `self.P`, `self._assemble_P`, `self.pc`
is assigned, leaving the instance exactly as it was. -/
theorem C9_validation_errors_atomic (clsPfx : String) (hook : FormHook)
    (self : PCState) (pc : OuterPC) (opts : OptionsDB) (matId innerId : Nat)
    (h : pc.pcType ≠ "python" ∨
      (pc.Pmat.type = "python" ∧ ∃ c, pc.Pmat.ctx = some c ∧ c.on_diag = false)) :
    (∃ m, (initPCWith clsPfx hook self pc opts matId innerId).err =
      some (.valueError m)) ∧
    (initPCWith clsPfx hook self pc opts matId innerId).state = self ∧
    (initPCWith clsPfx hook self pc opts matId innerId).trace = [] := by
  unfold initPCWith
  rcases h with ht | ⟨hP, c, hc, hd⟩
  · simp [ht]
  · by_cases ht : pc.pcType = "python"
    · simp [ht, hP, hc, hd]
    · simp [ht]

/-- Witness for C9 at a concrete off-diagonal operator. -/
theorem C9_validation_errors_atomic_witness :
    (∃ m, (initPCWith "schur_" AssembledPC.defaultHook sampleApplyState
      (mkPC pyOffDiagMat "python") [] 0 1).err = some (.valueError m)) ∧
    (initPCWith "schur_" AssembledPC.defaultHook sampleApplyState
      (mkPC pyOffDiagMat "python") [] 0 1).state = sampleApplyState :=
  have h := C9_validation_errors_atomic "schur_" AssembledPC.defaultHook
    sampleApplyState (mkPC pyOffDiagMat "python") [] 0 1
    (Or.inr ⟨rfl, ⟨false, 7, 8⟩, rfl, rfl⟩)
  ⟨h.1, h.2.1⟩

/-- C3: every successful `initialize` copies the null-space metadata of
the source preconditioning operator onto the assembled matrix: the
standard null space always, and the transpose null space whenever one
is attached (non-null handle) on the source operator. -/
theorem C3_nullspaces_propagated (clsPfx : String) (hook : FormHook)
    (self : PCState) (pc : OuterPC) (opts : OptionsDB) (matId innerId : Nat)
    (hs : (initPCWith clsPfx hook self pc opts matId innerId).err = none) :
    ∃ Pm, (initPCWith clsPfx hook self pc opts matId innerId).state.P = some Pm ∧
      Pm.nullsp = pc.Pmat.nullsp ∧
      (pc.Pmat.tnullsp.handle ≠ 0 → Pm.tnullsp = pc.Pmat.tnullsp) := by
  obtain ⟨ht, hdiag, a0, b0, hh⟩ :=
    initPCWith_ok_inv clsPfx hook self pc opts matId innerId hs
  rw [initPCWith_success_eq clsPfx hook self pc opts matId innerId a0 b0 ht hdiag hh]
  by_cases hns : pc.Pmat.tnullsp.handle ≠ 0
  · exact ⟨_, rfl, rfl, fun _ => by simp [hns]⟩
  · exact ⟨_, rfl, rfl, fun h => absurd h hns⟩

/-- Witness for C3 at a concrete successful `initialize` whose source
operator carries both null spaces. -/
theorem C3_nullspaces_propagated_witness :
    (initPCWith "assembled_" okHook .fresh (mkPC aijMat "python") [] 10 11).err =
      none ∧
    ∃ Pm, (initPCWith "assembled_" okHook .fresh (mkPC aijMat "python")
        [] 10 11).state.P = some Pm ∧
      Pm.nullsp = (mkPC aijMat "python").Pmat.nullsp ∧
      ((mkPC aijMat "python").Pmat.tnullsp.handle ≠ 0 →
        Pm.tnullsp = (mkPC aijMat "python").Pmat.tnullsp) :=
  ⟨by decide,
   C3_nullspaces_propagated "assembled_" okHook .fresh (mkPC aijMat "python")
     [] 10 11 (by decide)⟩

/-- C6: on success the inner solver is configured under the derived
options namespace `<outer PC options pfx><class pfx>`, the assembled
matrix storage format is read from the `mat_type` key under that
namespace (falling back to `"aij"` when the key is absent), the class
attribute is `"assembled_"` on `AssembledPC` and `"schur_"` on
`ExplicitSchurPC`. -/
theorem C6_derived_options_namespace (clsPfx : String) (hook : FormHook)
    (self : PCState) (pc : OuterPC) (opts : OptionsDB) (matId innerId a0 b0 : Nat)
    (ht : pc.pcType = "python")
    (hdiag : pc.Pmat.type = "python" → ∃ c, pc.Pmat.ctx = some c ∧ c.on_diag = true)
    (hh : hook (.pcArg pc) (.testArg pc.dmSpace) (.trialArg pc.dmSpace) = .ok (a0, b0)) :
    (initPCWith clsPfx hook self pc opts matId innerId).err = none ∧
    (∃ inner, (initPCWith clsPfx hook self pc opts matId innerId).state.pc =
        some inner ∧ inner.optsPfx = pc.optsPfx ++ clsPfx) ∧
    (∃ Pm, (initPCWith clsPfx hook self pc opts matId innerId).state.P = some Pm ∧
      Pm.mat_type =
        OptionsDB.getString opts (pc.optsPfx ++ clsPfx ++ "mat_type") "aij") ∧
    AssembledPC.clsPfx = "assembled_" ∧ ExplicitSchurPC.clsPfx = "schur_" ∧
    (∀ (o : OptionsDB) (k d : String),
      List.lookup k o = none → OptionsDB.getString o k d = d) := by
  rw [initPCWith_success_eq clsPfx hook self pc opts matId innerId a0 b0 ht hdiag hh]
  refine ⟨rfl, ⟨_, rfl, rfl⟩, ⟨_, rfl, rfl⟩, rfl, rfl, ?_⟩
  intro o k d hlk
  simp [OptionsDB.getString, hlk]

/-- Witness for C6 at a concrete input whose options database does not
set `mat_type` (so the format defaults to `"aij"`). -/
theorem C6_derived_options_namespace_witness :
    (initPCWith AssembledPC.clsPfx okHook .fresh (mkPC pyDiagMat "python")
      [] 10 11).err = none ∧
    (∃ inner, (initPCWith AssembledPC.clsPfx okHook .fresh (mkPC pyDiagMat "python")
      [] 10 11).state.pc = some inner ∧
      inner.optsPfx = (mkPC pyDiagMat "python").optsPfx ++ AssembledPC.clsPfx) :=
  have h := C6_derived_options_namespace AssembledPC.clsPfx okHook .fresh
    (mkPC pyDiagMat "python") [] 10 11 5 6 rfl
    (fun _ => ⟨⟨true, 7, 8⟩, rfl, rfl⟩) rfl
  ⟨h.1, h.2.1⟩

/-- C2 (divergence witness): with the outer PC of the expected type and
a matrix-free diagonal-block operator, `initialize` dispatching the
default `AssembledPC.form` hook raises
`AttributeError("getOperators")` instead of obtaining
`(context.a, context.row_bcs)`: the call site passes
`(pc, test, trial)` positionally but the hook declares its parameters
as `(test, trial, pc)`, so the trial function lands in the hook's `pc`
parameter.  The hook body itself, when its `pc` parameter is bound to
the PC object as documented, does return
`(context.a, context.row_bcs) = (7, 8)`. -/
theorem C2_default_hook_breaks_under_dispatch :
    (AssembledPC.initPC .fresh (mkPC pyDiagMat "python") [] 0 1).err =
      some (.attributeError "getOperators") ∧
    (AssembledPC.initPC .fresh (mkPC pyDiagMat "python") [] 0 1).state = .fresh ∧
    AssembledPC.form (.testArg 0) (.trialArg 0) (.pcArg (mkPC pyDiagMat "python")) =
      .ok (7, 8) :=
  ⟨rfl, rfl, rfl⟩

/-- C10 (divergence witness): on a preconditioning operator that is
already an explicit (`"aij"`) matrix, `initialize` with the default
hook fails with `AttributeError("getOperators")` — not at the
`assert P.type == "python"` — because the trial function is bound to
the hook's `pc` parameter; the assertion itself does fire (raising
`AssertionError`) when the hook's `pc` parameter is bound to the PC
object as documented. -/
theorem C10_explicit_operator_fails_before_assert :
    (AssembledPC.initPC .fresh (mkPC aijMat "python") [] 0 1).err =
      some (.attributeError "getOperators") ∧
    (AssembledPC.initPC .fresh (mkPC aijMat "python") [] 0 1).err ≠
      some .assertionError ∧
    AssembledPC.form (.testArg 0) (.trialArg 0) (.pcArg (mkPC aijMat "python")) =
      .error .assertionError :=
  ⟨rfl, by decide, rfl⟩

end Firedrake
